import Mathlib

/-!
Verification development for the two core subsystems of the zim-desktop-wiki
repository: the asynchronous page-persistence handler (`SavePageHandler`) and
the index/tree-model base classes (`zim/notebook/index/base.py`).

The index base classes are embedded directly from `zim/notebook/index/base.py`.
The `SavePageHandler` implementation lives in `zim/gui/pageview.py`, which is
not among the sources; only its unit test (`tests/save_page.py`) is.  Its model
below is therefore reconstructed from the specification's description of the
save coordinator (doc comments starting with `Modelled from the spec:`), kept
consistent with every assertion of `tests/save_page.py`.
-/

namespace Zim

/-! ## SavePageHandler (save coordinator) model -/

/-- Modelled from the spec: the observable state of a `SavePageHandler`
together with the document it manages.  `SavePageHandler` itself is defined in
`zim/gui/pageview.py`, which is not among the sources.  `modified` is the
document's dirty flag, `thread_error_event` the coordinator's error flag, and
`pending` records an in-flight background save together with the outcome its
`store` call will have (`none` when no background save is in flight; the
coordinator keeps at most one in flight). -/
structure SaveState where
  modified : Bool
  thread_error_event : Bool
  pending : Option Bool
deriving DecidableEq, Repr

/-- Modelled from the spec: the outcome of one coordinator operation — the
state afterwards, how many `store` invocations the operation started, and
whether the error-reporting collaborator (`SavePageErrorDialog`) was invoked
during it. -/
structure SaveOutcome where
  state : SaveState
  storeCalls : Nat
  dialogShown : Bool
deriving DecidableEq, Repr

/-- Modelled from the spec: `SavePageHandler.join` (implementation not among
the sources) blocks until the in-flight background save completes.  On success
the background save clears `modified` and the error flag; on failure it sets
the error flag, leaves `modified` untouched, and does not invoke the
error-reporting collaborator.  The `store` call of a background save is counted
when it is scheduled, so `join` itself starts none. -/
def join (s : SaveState) : SaveOutcome :=
  match s.pending with
  | none => ⟨s, 0, false⟩
  | some true => ⟨⟨false, false, none⟩, 0, false⟩
  | some false => ⟨⟨s.modified, true, none⟩, 0, false⟩

/-- Modelled from the spec: `SavePageHandler.save_page_now` (implementation not
among the sources) waits for any in-flight background save, then performs one
synchronous `store` whose outcome is `storeOk`.  On success it clears
`modified` and the error flag; on failure it leaves both flags as they were
and invokes the error-reporting collaborator unconditionally.  Per
`tests/save_page.py` the synchronous `store` happens whether or not the
document is modified. -/
def save_page_now (storeOk : Bool) (s : SaveState) : SaveOutcome :=
  let j := join s
  if storeOk then
    ⟨⟨false, false, none⟩, j.storeCalls + 1, false⟩
  else
    ⟨j.state, j.storeCalls + 1, true⟩

/-- Modelled from the spec: `SavePageHandler.try_save_page` (implementation not
among the sources).  No-op when the document is not modified.  When modified
and the error flag is set it escalates to a synchronous `save_page_now`.
Otherwise it schedules one background save (at most one in flight), whose
`store` call is counted here and whose effects land at `join`; `storeOk` is the
outcome that `store` call will have. -/
def try_save_page (storeOk : Bool) (s : SaveState) : SaveOutcome :=
  if s.modified then
    if s.thread_error_event then
      save_page_now storeOk s
    else if s.pending.isSome then
      ⟨s, 0, false⟩
    else
      ⟨⟨s.modified, s.thread_error_event, some storeOk⟩, 1, false⟩
  else
    ⟨s, 0, false⟩

/-! ## Index base classes, from `zim/notebook/index/base.py` -/

/-- The error kinds raised by the index code of `zim/notebook/index/base.py`:
`IndexNotFoundError` (lookup failed because the object is absent),
`IndexConsistencyError` (lookup failed while expected to succeed), and
`NotImplementedError` (abstract method not overloaded by a subclass).  The
first two are distinct classes in the source (subclassing `ValueError` and
`AssertionError` respectively), hence distinct constructors here. -/
inductive PyError where
  | IndexNotFoundError (msg : String)
  | IndexConsistencyError (msg : String)
  | NotImplementedError
deriving DecidableEq, Repr

/-- `MyTreeIter` from `zim/notebook/index/base.py`: a treepath (tuple of
integers), an opaque row, and an optional hint. -/
structure MyTreeIter where
  treepath : List Nat
  row : Nat
  hint : Option Nat
deriving DecidableEq, Repr

/-- The mutable state of a `TreeModelMixinBase` instance from
`zim/notebook/index/base.py`: the treepath cache (`self.cache`, a dict) and
whether the instance is connected to the index's update-iter notification
stream (established by `__init__` via `connect_to_updateiter`). -/
structure TreeModelMixinBase where
  cache : List (List Nat × MyTreeIter)
  connected : Bool
deriving DecidableEq, Repr

/-- The structural notifications listed in the doc string of
`TreeModelMixinBase.connect_to_updateiter`: row-inserted, row-changed,
row-has-child-toggled and row-deleted. -/
inductive IndexSignal where
  | row_inserted (treepath : List Nat) (iter : MyTreeIter)
  | row_changed (treepath : List Nat) (iter : MyTreeIter)
  | row_has_child_toggled (treepath : List Nat) (iter : MyTreeIter)
  | row_deleted (treepath : List Nat)
deriving DecidableEq, Repr

/-- Modelled from the spec: the signal handlers that a concrete subclass
installs in `connect_to_updateiter` (the base method in
`zim/notebook/index/base.py` is abstract and the concrete subclasses are not
among the sources).  Every notification flushes the cache wholesale with
`self.cache.clear()`, as the base class's doc string and the spec prescribe. -/
def on_index_signal (m : TreeModelMixinBase) (_sig : IndexSignal) : TreeModelMixinBase :=
  { m with cache := [] }

/-- Modelled from the spec: `flush_cache`, called by
`TreeModelMixinBase.teardown` but not defined in `zim/notebook/index/base.py`;
per the spec it empties the cache. -/
def flush_cache (m : TreeModelMixinBase) : TreeModelMixinBase :=
  { m with cache := [] }

/-- Modelled from the spec: `ConnectorMixin.disconnect_all` (defined in
`zim/signals.py`, not among the sources); it detaches the instance from the
notification stream. -/
def disconnect_all (m : TreeModelMixinBase) : TreeModelMixinBase :=
  { m with connected := false }

/-- `TreeModelMixinBase.teardown` from `zim/notebook/index/base.py`: calls
`self.flush_cache()` then `self.disconnect_all()`. -/
def teardown (m : TreeModelMixinBase) : TreeModelMixinBase :=
  disconnect_all (flush_cache m)

/-- `TreeModelMixinBase.find_all` from `zim/notebook/index/base.py`:
`return [self.find(obj)]`.  `self.find` is abstract in the base class, so the
embedding takes the subclass's `find` as a parameter; an exception raised by
`find` propagates out of `find_all`. -/
def find_all (find : Nat → Except PyError (List Nat)) (obj : Nat) :
    Except PyError (List (List Nat)) :=
  match find obj with
  | .ok p => .ok [p]
  | .error e => .error e

/-- Modelled from the spec: a concrete index lookup (`find`) resolving an
object to its treepath — the concrete `TreeModelMixinBase` subclasses
implementing `find` are not among the sources.  The index is an association
list from object ids to treepaths; an absent object fails with
`IndexNotFoundError`, as the base class's doc string prescribes. -/
def lookup (index : List (Nat × List Nat)) (obj : Nat) : Except PyError (List Nat) :=
  match index.find? (fun e => e.1 == obj) with
  | some e => .ok e.2
  | none => .error (.IndexNotFoundError "no such object")

/-- Modelled from the spec: a lookup that is expected by invariant to succeed;
if it does not, it fails with `IndexConsistencyError` instead of
`IndexNotFoundError` (the pattern the two error classes of
`zim/notebook/index/base.py` exist for). -/
def lookup_expected (index : List (Nat × List Nat)) (obj : Nat) :
    Except PyError (List Nat) :=
  match lookup index obj with
  | .ok p => .ok p
  | .error _ => .error (.IndexConsistencyError "lookup expected to succeed")

/-- `PluginIndexerBase` from `zim/notebook/index/base.py`: `PLUGIN_NAME` and
`PLUGIN_DB_FORMAT` default to `None`; `on_db_teardown_impl` is the subclass's
override of `on_db_teardown` when present (`none` when the subclass does not
override it). -/
structure PluginIndexerBase where
  plugin_name : Option String
  plugin_db_format : Option String
  on_db_teardown_impl : Option (Except PyError Unit)

/-- `PluginIndexerBase.on_db_teardown` from `zim/notebook/index/base.py`:
dispatches to the subclass override when present; the base implementation is
`raise NotImplementedError`. -/
def PluginIndexerBase.on_db_teardown (p : PluginIndexerBase) : Except PyError Unit :=
  p.on_db_teardown_impl.getD (.error .NotImplementedError)

/-! ## Claim theorems -/

/-- Claim C1: the dirty flag tracks persistence success — after
`save_page_now` returns without reporting an error the document is no longer
modified, and when `store` fails a modified document stays modified both after
`try_save_page` followed by `join` and after `save_page_now`.  The coordinator
is quiescent (no background save already in flight) at the initial call, as in
every scenario of `tests/save_page.py`. -/
theorem claim_C1_modified_iff_store_success (ok : Bool) (s : SaveState)
    (h : s.pending = none) :
    ((save_page_now ok s).dialogShown = false →
      (save_page_now ok s).state.modified = false) ∧
    (s.modified = true →
      (join (try_save_page false s).state).state.modified = true ∧
      (save_page_now false s).state.modified = true) := by
  obtain ⟨m, e, p⟩ := s
  simp only at h
  subst h
  cases m <;> cases e <;> cases ok <;> decide

/-- Witness for claim C1 at a concrete modified, error-free state. -/
theorem claim_C1_witness :
    ((save_page_now true ⟨true, false, none⟩).dialogShown = false →
      (save_page_now true ⟨true, false, none⟩).state.modified = false) ∧
    ((⟨true, false, none⟩ : SaveState).modified = true →
      (join (try_save_page false ⟨true, false, none⟩).state).state.modified = true ∧
      (save_page_now false ⟨true, false, none⟩).state.modified = true) :=
  claim_C1_modified_iff_store_success true ⟨true, false, none⟩ rfl

/-- Claim C2, refuted as stated: `tests/save_page.py` (lines 36-38) asserts
that `save_page_now` on an unmodified page still increments the store counter
from 0 to 1, so the store count is not zero when the document is unmodified. -/
theorem claim_C2_counterexample :
    (save_page_now true ⟨false, false, none⟩).storeCalls = 1 ∧
    ¬ (save_page_now true ⟨false, false, none⟩).storeCalls = 0 := by
  decide

/-- Claim C2 as amended: from a quiescent state, `try_save_page` starts exactly
one `store` invocation when the document is modified and zero when it is not,
while `save_page_now` always performs exactly one `store` invocation,
regardless of whether the document is modified. -/
theorem claim_C2_store_count (ok : Bool) (s : SaveState) (h : s.pending = none) :
    (try_save_page ok s).storeCalls = (if s.modified then 1 else 0) ∧
    (save_page_now ok s).storeCalls = 1 := by
  obtain ⟨m, e, p⟩ := s
  simp only at h
  subst h
  cases m <;> cases e <;> cases ok <;> decide

/-- Witness for the amended claim C2 at a concrete modified state. -/
theorem claim_C2_store_count_witness :
    (try_save_page true ⟨true, false, none⟩).storeCalls = 1 ∧
    (save_page_now true ⟨true, false, none⟩).storeCalls = 1 := by
  have h := claim_C2_store_count true ⟨true, false, none⟩ rfl
  simpa using h

/-- Claim C3: when the background save started by `try_save_page` fails, the
error flag becomes set after `join` and no error dialog is shown at any point;
a subsequent `try_save_page` in that state is exactly a synchronous
`save_page_now`, and on failure it does invoke the error dialog. -/
theorem claim_C3_autosave_escalation (s : SaveState) (h : s.pending = none)
    (hm : s.modified = true) (he : s.thread_error_event = false) :
    (try_save_page false s).dialogShown = false ∧
    (join (try_save_page false s).state).dialogShown = false ∧
    (join (try_save_page false s).state).state.thread_error_event = true ∧
    try_save_page false (join (try_save_page false s).state).state
      = save_page_now false (join (try_save_page false s).state).state ∧
    (try_save_page false (join (try_save_page false s).state).state).dialogShown
      = true := by
  obtain ⟨m, e, p⟩ := s
  simp only at h hm he
  subst h
  subst hm
  subst he
  decide

/-- Witness for claim C3 at the concrete state of the test scenario. -/
theorem claim_C3_witness :
    (try_save_page false ⟨true, false, none⟩).dialogShown = false ∧
    (join (try_save_page false ⟨true, false, none⟩).state).dialogShown = false ∧
    (join (try_save_page false ⟨true, false, none⟩).state).state.thread_error_event
      = true ∧
    try_save_page false (join (try_save_page false ⟨true, false, none⟩).state).state
      = save_page_now false (join (try_save_page false ⟨true, false, none⟩).state).state ∧
    (try_save_page false
        (join (try_save_page false ⟨true, false, none⟩).state).state).dialogShown
      = true :=
  claim_C3_autosave_escalation ⟨true, false, none⟩ rfl rfl rfl

/-- Claim C4: `save_page_now` on a modified document whose `store` fails
invokes the error dialog and leaves the document modified, whatever the prior
value of the error flag. -/
theorem claim_C4_explicit_save_always_reports (s : SaveState)
    (h : s.pending = none) (hm : s.modified = true) :
    (save_page_now false s).dialogShown = true ∧
    (save_page_now false s).state.modified = true := by
  obtain ⟨m, e, p⟩ := s
  simp only at h hm
  subst h
  subst hm
  cases e <;> decide

/-- Witness for claim C4 at a concrete state with the error flag set. -/
theorem claim_C4_witness :
    (save_page_now false ⟨true, true, none⟩).dialogShown = true ∧
    (save_page_now false ⟨true, true, none⟩).state.modified = true :=
  claim_C4_explicit_save_always_reports ⟨true, true, none⟩ rfl rfl

/-- Claim C5: a lookup for an absent object fails with `IndexNotFoundError`, a
lookup expected by invariant to succeed that does not fails with
`IndexConsistencyError`, and the two error kinds are distinct. -/
theorem claim_C5_two_error_kinds (index : List (Nat × List Nat)) (obj : Nat)
    (h : ∀ e ∈ index, e.1 ≠ obj) :
    lookup index obj = .error (.IndexNotFoundError "no such object") ∧
    lookup_expected index obj
      = .error (.IndexConsistencyError "lookup expected to succeed") ∧
    ∀ m m', PyError.IndexNotFoundError m ≠ PyError.IndexConsistencyError m' := by
  have hf : index.find? (fun e => e.1 == obj) = none := by
    rw [List.find?_eq_none]
    intro x hx
    simpa using h x hx
  refine ⟨?_, ?_, ?_⟩
  · simp [lookup, hf]
  · simp [lookup_expected, lookup, hf]
  · intro m m' hc
    exact PyError.noConfusion hc

/-- Witness for claim C5 on a one-entry index and an absent object. -/
theorem claim_C5_witness :
    lookup [(1, [0])] 2 = .error (.IndexNotFoundError "no such object") ∧
    lookup_expected [(1, [0])] 2
      = .error (.IndexConsistencyError "lookup expected to succeed") ∧
    PyError.IndexNotFoundError "a" ≠ PyError.IndexConsistencyError "a" := by
  have h := claim_C5_two_error_kinds [(1, [0])] 2 (by decide)
  exact ⟨h.1, h.2.1, h.2.2 "a" "a"⟩

/-- Claim C6: every structural notification is handled by invalidating the
whole `TreeIterHandle` cache, so the cache is empty immediately afterwards,
before any repopulation. -/
theorem claim_C6_wholesale_invalidation (m : TreeModelMixinBase)
    (sig : IndexSignal) :
    (on_index_signal m sig).cache = [] := rfl

/-- Claim C7: the default `find_all` returns exactly the single path produced
by `find`, wrapped in a one-element sequence. -/
theorem claim_C7_find_all_default (find : Nat → Except PyError (List Nat))
    (obj : Nat) (p : List Nat) (h : find obj = .ok p) :
    find_all find obj = .ok [p] := by
  unfold find_all
  rw [h]

/-- Witness for claim C7 with the concrete lookup on a one-entry index. -/
theorem claim_C7_witness :
    find_all (lookup [(1, [0])]) 1 = .ok [[0]] :=
  claim_C7_find_all_default (lookup [(1, [0])]) 1 [0] rfl

/-- Claim C8: `teardown` empties the adapter's cache and detaches it from the
notification stream, and a single call completes (it is a total function of
the adapter state). -/
theorem claim_C8_teardown_flushes_and_detaches (m : TreeModelMixinBase) :
    (teardown m).cache = [] ∧ (teardown m).connected = false :=
  ⟨rfl, rfl⟩

/-- Claim C9: the default `find_all` fails with `IndexNotFoundError` exactly
when `find` does — an absent object makes `find_all` raise rather than return
an empty sequence. -/
theorem claim_C9_find_all_error_propagation
    (find : Nat → Except PyError (List Nat)) (obj : Nat) (msg : String) :
    find_all find obj = .error (.IndexNotFoundError msg) ↔
      find obj = .error (.IndexNotFoundError msg) := by
  unfold find_all
  cases hf : find obj <;> simp

/-- Claim C10: a `PluginIndexerBase` whose class does not override
`on_db_teardown` raises `NotImplementedError` from it. -/
theorem claim_C10_default_on_db_teardown_raises (p : PluginIndexerBase)
    (h : p.on_db_teardown_impl = none) :
    p.on_db_teardown = .error .NotImplementedError := by
  simp [PluginIndexerBase.on_db_teardown, h]

/-- Witness for claim C10 on a plugin indexer with no override. -/
theorem claim_C10_witness :
    PluginIndexerBase.on_db_teardown ⟨none, none, none⟩
      = .error .NotImplementedError :=
  claim_C10_default_on_db_teardown_raises ⟨none, none, none⟩ rfl

end Zim
